import Mathlib

/-!
Verification of the gravity update-init phase executors and the cluster
configuration / Kubernetes subnet validators, as shallow Lean embeddings of
the Go sources (`lib/update/cluster/phases/init.go`, `lib/validate/net.go`,
`lib/validate/clusterconfig.go`).

External collaborators (backend store, package repository, identity store,
the `trace` error library) are modelled at their interface boundary: a
collaborator call becomes an explicit response value (or response function)
threaded into the embedded code, and the backend's stored cluster record
becomes an explicit state value.
-/

/-- The kind of a `trace` library error, as observed through the
classification predicates `trace.IsNotFound` / `trace.IsAlreadyExists` /
`trace.IsBadParameter` used by the embedded code. -/
inductive ErrKind where
  | notFound
  | alreadyExists
  | badParameter
  | other
  deriving DecidableEq, Repr

/-- A Go error value: either a simple classified error or an aggregate
produced by `trace.NewAggregate`. -/
inductive GoError where
  | err (kind : ErrKind) (msg : String)
  | aggregate (errs : List GoError)

/-- `trace.IsNotFound`: true exactly on simple errors of kind notFound. -/
def IsNotFound : GoError → Bool
  | .err .notFound _ => true
  | _ => false

/-- `trace.IsAlreadyExists`: true exactly on simple errors of kind
alreadyExists. -/
def IsAlreadyExists : GoError → Bool
  | .err .alreadyExists _ => true
  | _ => false

/-- `trace.Wrap(err, msg)` decorates an error with a message and stack trace
but preserves the underlying error: the classification predicates and error
identity see through it, so the embedding keeps the error unchanged. -/
def traceWrap (e : GoError) (_msg : String) : GoError := e

/-- `trace.NewAggregate(errs...)`: nil when the list is empty, otherwise an
aggregate holding exactly the given (non-nil) errors. -/
def newAggregate (errs : List GoError) : Option GoError :=
  if errs.isEmpty then none else some (.aggregate errs)

/-! ### IPv4 CIDR parsing (model of the `net.ParseCIDR` stdlib collaborator,
restricted to IPv4 dotted-quad inputs, which is the form the validators and
the repository's own tests exercise). -/

/-- Split a character list on a separator character, mirroring how
`net.ParseCIDR` and `parseIPv4` cut the input at `/` and `.`. -/
def splitOnChar (sep : Char) : List Char → List (List Char)
  | [] => [[]]
  | c :: rest =>
    match splitOnChar sep rest with
    | h :: t => if c == sep then [] :: h :: t else (c :: h) :: t
    | [] => if c == sep then [[], []] else [[c]]

/-- Parse a non-empty all-digit character run as a decimal number
(model of `net.dtoi`; out-of-range values are rejected by the callers'
range checks just as the Go cutoff is). -/
def parseDecL (l : List Char) : Option Nat :=
  if l.isEmpty then none
  else l.foldl (fun acc c =>
    match acc with
    | some n => if c.isDigit then some (n * 10 + (c.toNat - 48)) else none
    | none => none) (some 0)

/-- The 32-bit value of a dotted quad. -/
def ipv4Val (a b c d : Nat) : Nat := ((a * 256 + b) * 256 + c) * 256 + d

/-- Parse a dotted-quad IPv4 address (model of `net.parseIPv4`): exactly
four fields, each a non-empty digit run with value at most 255. -/
def parseIPv4L (l : List Char) : Option Nat :=
  match splitOnChar '.' l with
  | [a, b, c, d] =>
    match parseDecL a, parseDecL b, parseDecL c, parseDecL d with
    | some va, some vb, some vc, some vd =>
      if va ≤ 255 && vb ≤ 255 && vc ≤ 255 && vd ≤ 255 then
        some (ipv4Val va vb vc vd)
      else none
    | _, _, _, _ => none
  | _ => none

/-- Clear the low `32 - ones` bits of `ip` (the `ip.Mask(mask)` operation
`net.ParseCIDR` applies to the parsed address). -/
def maskBase (ones ip : Nat) : Nat := ip / 2 ^ (32 - ones) * 2 ^ (32 - ones)

/-- An IPv4 network as returned by `net.ParseCIDR`: the masked base address
together with the prefix length (`Mask.Size()`'s leading-ones count). -/
structure IPNet where
  ip : Nat
  ones : Nat
  deriving DecidableEq, Repr

/-- Model of `net.ParseCIDR` on IPv4 input: address part before a single
`/`, decimal prefix length at most 32 after it; the returned network
carries the masked base address. -/
def parseCIDRL (l : List Char) : Option IPNet :=
  match splitOnChar '/' l with
  | [addr, mask] =>
    match parseIPv4L addr, parseDecL mask with
    | some ip, some n => if n ≤ 32 then some ⟨maskBase n ip, n⟩ else none
    | _, _ => none
  | _ => none

/-- `net.ParseCIDR` over the string input. -/
def parseCIDR (s : String) : Option IPNet := parseCIDRL s.data

/-- `(*net.IPNet).Contains`: the candidate address masked with the
network's mask equals the network's (already masked) base address. -/
def IPNet.Contains (n : IPNet) (x : Nat) : Bool := maskBase n.ones x == n.ip

/-- `validate.KubernetesSubnets` (lib/validate/net.go): checks that the
provided CIDR ranges can be used as pod/service Kubernetes subnets. -/
def KubernetesSubnets (podCIDR serviceCIDR : String) : Option GoError :=
  -- make sure the pod subnet is valid
  match (if podCIDR ≠ "" then
          match parseCIDR podCIDR with
          | none => Except.error (GoError.err .badParameter "invalid pod subnet")
          | some podNet =>
            -- the pod network should be /16 minimum so k8s can allocate /24 to each node
            if 16 < podNet.ones then
              Except.error (GoError.err .badParameter "pod subnet should be a minimum of /16")
            else Except.ok (some podNet)
        else Except.ok none : Except GoError (Option IPNet)) with
  | .error e => some e
  | .ok podNet =>
    -- make sure the service subnet is valid
    match (if serviceCIDR ≠ "" then
            match parseCIDR serviceCIDR with
            | none => Except.error (GoError.err .badParameter "invalid service subnet")
            | some serviceNet => Except.ok (some serviceNet)
          else Except.ok none : Except GoError (Option IPNet)) with
    | .error e => some e
    | .ok serviceNet =>
      -- make sure the subnets do not overlap
      match podNet, serviceNet with
      | some pn, some sn =>
        if pn.Contains sn.ip || sn.Contains pn.ip then
          some (GoError.err .badParameter "pod subnet and service subnet should not overlap")
        else none
      | _, _ => none

example : KubernetesSubnets "10.244.0.0/16" "10.100.0.0/16" = none := rfl

example : (KubernetesSubnets "10.244.0.0-10.244.255.0" "" ).isSome = true := rfl

example : (KubernetesSubnets "" "10.100.0.0-10.100.255.0").isSome = true := rfl

example : (KubernetesSubnets "10.200.0.0/20" "").isSome = true := rfl

example : (KubernetesSubnets "10.100.0.0/16" "10.100.100.0/16").isSome = true := rfl

/-! ### Cluster configuration update validation
(`validate.ClusterConfiguration`). The `clusterconfig.Interface`
collaborator is observed only through `GetGlobalConfig`, so an input
configuration is embedded as its global-config projection; the external
`Global.IsEmpty` method (whose source is outside the validator) is an
explicit predicate parameter. -/

/-- The global cluster configuration as consumed by
`validate.ClusterConfiguration`. -/
structure GlobalConfig where
  cloudProvider : String
  cloudConfig : String
  podCIDR : String
  serviceCIDR : String
  deriving DecidableEq, Repr

/-- `validate.isCloudConfigEmpty`. -/
def isCloudConfigEmpty (g : GlobalConfig) : Bool :=
  g.cloudProvider == "" && g.cloudConfig == ""

/-- `validate.ClusterConfiguration`: validates that `update` can update
`existing` without invalidating consistency. `isEmpty` stands for the
external `clusterconfig.Global.IsEmpty` method. -/
def ClusterConfiguration (isEmpty : GlobalConfig → Bool)
    (existing update : GlobalConfig) : Option GoError :=
  if !isCloudConfigEmpty update &&
      (update.cloudConfig ≠ "" && update.cloudProvider == "") then
    some (.err .badParameter "cloud provider is required when updating cloud configuration")
  else if isEmpty update then
    some (.err .badParameter "provided cluster configuration is empty")
  else if isCloudConfigEmpty existing && !isCloudConfigEmpty update then
    some (.err .badParameter "cannot change cloud configuration: cluster does not have cloud provider configured")
  else if update.cloudProvider ≠ "" && existing.cloudProvider ≠ update.cloudProvider then
    some (.err .badParameter "changing cloud provider is not supported")
  else if existing.cloudProvider == "" && update.cloudConfig ≠ "" then
    some (.err .badParameter "cannot set cloud configuration: cluster does not have cloud provider configured")
  else if update.podCIDR == existing.podCIDR then
    some (.err .badParameter "specified pod subnet is the same as existing pod subnet")
  else if update.serviceCIDR == existing.serviceCIDR then
    some (.err .badParameter "specified service subnet is the same as existing service subnet")
  else
    match (if update.podCIDR ≠ "" then
            KubernetesSubnets update.podCIDR
              (if update.serviceCIDR == "" then existing.serviceCIDR else update.serviceCIDR)
          else none) with
    | some e => some (traceWrap e "")
    | none =>
      if update.serviceCIDR ≠ "" then
        match KubernetesSubnets
            (if update.podCIDR == "" then existing.podCIDR else update.podCIDR)
            update.serviceCIDR with
        | some e => some (traceWrap e "")
        | none => none
      else none

/-! ### Data model of the update init phase (lib/update/cluster/phases/init.go)

Storage types are embedded with the fields the phase reads or writes plus a
`rest` field standing for all remaining fields, which the phase copies
verbatim.  The external `IsEmpty` methods of `storage.OSUser`,
`storage.DockerConfig` and `storage.DNSConfig` live outside the phase
source, so each is an explicit predicate parameter of the code that
consults it. -/

/-- `loc.Locator`: a package locator. -/
structure Locator where
  repository : String
  name : String
  version : String
  deriving DecidableEq, Repr

/-- The zero `loc.Locator` value. -/
def zeroLocator : Locator := ⟨"", "", ""⟩

/-- The stored cluster service user (`storage.OSUser`): string-valued
fields as persisted in the cluster record. -/
structure OSUser where
  name : String
  uid : String
  gid : String
  deriving DecidableEq, Repr

/-- A system user as returned by `install.GetOrCreateServiceUser`
(numeric uid/gid, converted with `strconv.Itoa` on store). -/
structure SysUser where
  name : String
  uid : Int
  gid : Int
  deriving DecidableEq, Repr

/-- `storage.DockerConfig` as stored in the cluster record; the phase only
copies whole values and consults the external `IsEmpty`. -/
structure DockerConfig where
  storageDriver : String
  args : List String
  deriving DecidableEq, Repr

/-- `storage.DNSConfig`; the phase only copies whole values and consults
the external `IsEmpty`. -/
structure DNSConfig where
  addrs : List String
  port : Nat
  deriving DecidableEq, Repr

/-- A cluster server entry (`storage.Server`) with the fields
`updateClusterRoles` touches; `rest` stands for all other fields. -/
structure ServerRec where
  advertiseIP : String
  clusterRole : String
  rest : Nat
  deriving DecidableEq, Repr

/-- The zero `storage.Server` value, returned by a Go map lookup on a
missing advertise-IP key. -/
def zeroServerRec : ServerRec := ⟨"", "", 0⟩

/-- The `ClusterState` portion of the stored cluster record. -/
structure ClusterState where
  docker : DockerConfig
  servers : List ServerRec
  rest : Nat
  deriving DecidableEq, Repr

/-- The stored cluster record (`storage.Site`) with the fields the init
phase reads or writes; `rest` stands for all other fields. -/
structure Site where
  serviceUser : OSUser
  clusterState : ClusterState
  dnsConfig : DNSConfig
  rest : Nat
  deriving DecidableEq, Repr

/-- A stored object peer (`storage.Peer`). -/
structure Peer where
  id : String
  rest : Nat
  deriving DecidableEq, Repr

/-- `pack.LabelUpdate`: a label add/remove request against one package. -/
structure LabelUpdate where
  locator : Locator
  add : List (String × String)
  remove : List String
  deriving DecidableEq, Repr

/-- A package envelope (`pack.PackageEnvelope`) as seen by the phase:
its locator and runtime labels. -/
structure PackageEnvelope where
  locator : Locator
  labels : List (String × String)
  deriving DecidableEq, Repr

/-- `pack.PackageEnvelope.HasLabel`: the envelope carries the given
label name with exactly the given value. -/
def PackageEnvelope.HasLabel (e : PackageEnvelope) (name value : String) : Bool :=
  e.labels.lookup name == some value

/-- `pack.OperationIDLabel` (external constant; its exact value does not
affect the verified properties). -/
def OperationIDLabel : String := "operation-id"

/-- `pack.InstalledLabel` (external constant). -/
def InstalledLabel : String := "installed"

/-- `pack.InstalledLabels` (external constant). -/
def InstalledLabels : List (String × String) := [(InstalledLabel, InstalledLabel)]

/-- `pack.PurposeLabel` (external constant). -/
def PurposeLabel : String := "purpose"

/-- `pack.PurposeTeleportNodeConfig` (external constant). -/
def PurposeTeleportNodeConfig : String := "teleport-node-config"

/-- `pack.RuntimePackageLabels` (external constant). -/
def RuntimePackageLabels : List (String × String) := [(PurposeLabel, "runtime")]

/-- `utils.CombineLabels`: merge label maps. -/
def CombineLabels (a b : List (String × String)) : List (String × String) := a ++ b

/-- `loc.LegacyPlanetMaster` (external constant). -/
def LegacyPlanetMaster : Locator := ⟨"gravitational.io", "planet-master", "0.0.0"⟩

/-- `loc.LegacyPlanetNode` (external constant). -/
def LegacyPlanetNode : Locator := ⟨"gravitational.io", "planet-node", "0.0.0"⟩

/-- `loc.IsLegacyRuntimePackage` (external helper): the locator names one
of the legacy planet runtime packages. -/
def IsLegacyRuntimePackage (l : Locator) : Bool :=
  l.name == LegacyPlanetMaster.name || l.name == LegacyPlanetNode.name

/-- `loc.Locator.WithLiteralVersion` (external helper): same locator with
the version replaced. -/
def Locator.WithLiteralVersion (l : Locator) (v : String) : Locator :=
  { l with version := v }

/-- `utils.StringInSlice`: membership of a string in a slice. -/
def StringInSlice (slice : List String) (s : String) : Bool := slice.contains s

/-- A `context.Context` value; the embedded lifecycle methods never
inspect it. -/
structure GoContext where
  id : Nat
  deriving DecidableEq, Repr

/-! ### Update init phase helpers (leader executor `updatePhaseInit`) -/

/-- Result of a helper that may read and update the stored cluster record:
its error, the record afterwards, and how many `Backend.UpdateSite` writes
it performed. -/
structure SiteStep where
  err : Option GoError
  site : Site
  writes : Nat

/-- `updatePhaseInit.createAdminAgent`: create the cluster admin agent,
treating an "already exists" response from `Users.CreateClusterAdminAgent`
as success.  `resp` is the collaborator's error response. -/
def createAdminAgent (resp : Option GoError) : Option GoError :=
  match resp with
  | some e => if IsAlreadyExists e then none else some (traceWrap e "")
  | none => none

/-- `updatePhaseInit.initRPCCredentials`: initialize RPC credentials,
treating an "already exists" response from `rpc.InitCredentials` as
success.  `resp` is the collaborator's result. -/
def initRPCCredentials (resp : Except GoError Locator) : Option GoError :=
  match resp with
  | .error e => if IsAlreadyExists e then none else some (traceWrap e "")
  | .ok _ => none

/-- `updatePhaseInit.upsertServiceUser`: if the stored record's service
user is empty, look up or create the system service user and persist it;
otherwise nothing to do.  `isEmpty` stands for the external
`storage.OSUser.IsEmpty`, `getOrCreate` for the
`install.GetOrCreateServiceUser` collaborator result. -/
def upsertServiceUser (isEmpty : OSUser → Bool)
    (getOrCreate : Except GoError SysUser) (site : Site) : SiteStep :=
  if !(isEmpty site.serviceUser) then
    -- Nothing to do
    ⟨none, site, 0⟩
  else
    match getOrCreate with
    | .error e =>
      ⟨some (traceWrap e "failed to lookup/create service user"), site, 0⟩
    | .ok user =>
      ⟨none,
        { site with serviceUser :=
            { name := user.name, uid := toString user.uid, gid := toString user.gid } },
        1⟩

/-- The Go map built by `updatePhaseInit.updateClusterRoles` from the plan
servers, looked up by advertise IP: insertion order means the last matching
plan server wins, and a missing key yields the zero `storage.Server`. -/
def planServerByIP (plan : List ServerRec) (ip : String) : ServerRec :=
  (plan.reverse.find? (fun s => s.advertiseIP == ip)).getD zeroServerRec

/-- The per-server update of `updatePhaseInit.updateClusterRoles`: a server
with a non-empty cluster role is left alone; an empty one receives the
role of the plan server with the same advertise IP (the zero value, i.e.
the empty role, when no plan server matches). -/
def assignClusterRole (plan : List ServerRec) (server : ServerRec) : ServerRec :=
  if server.clusterRole ≠ "" then server
  else { server with clusterRole := (planServerByIP plan server.advertiseIP).clusterRole }

/-- `updatePhaseInit.updateClusterRoles`: read the stored record, fill in
empty cluster roles from the plan servers, and write the record back. -/
def updateClusterRoles (plan : List ServerRec) (site : Site) : SiteStep :=
  ⟨none,
    { site with clusterState :=
        { site.clusterState with servers := site.clusterState.servers.map (assignClusterRole plan) } },
    1⟩

/-- `updatePhaseInit.updateClusterDNSConfig`: read the stored record,
replace an empty DNS configuration with the existing one, and write the
record back (the write happens in both cases).  `isEmpty` stands for the
external `storage.DNSConfig.IsEmpty`. -/
def updateClusterDNSConfig (isEmpty : DNSConfig → Bool)
    (existingDNS : DNSConfig) (site : Site) : SiteStep :=
  if isEmpty site.dnsConfig then
    ⟨none, { site with dnsConfig := existingDNS }, 1⟩
  else
    ⟨none, site, 1⟩

/-- `updatePhaseInit.updateDockerConfig`: persist the Docker configuration
of the currently installed application when the stored one is empty;
otherwise nothing to do (no write).  `isEmpty` stands for the external
`storage.DockerConfig.IsEmpty`. -/
def updateDockerConfig (isEmpty : DockerConfig → Bool)
    (existingDocker : DockerConfig) (site : Site) : SiteStep :=
  if !(isEmpty site.clusterState.docker) then
    -- Nothing to do
    ⟨none, site, 0⟩
  else
    ⟨none, { site with clusterState := { site.clusterState with docker := existingDocker } }, 1⟩

/-- `updatePhaseInit.invalidPeers`: true when every given peer is absent
from the cluster's existing object peers. -/
def invalidPeers (existingPeers : List String) (peers : List String) : Bool :=
  peers.all (fun peer => !(StringInSlice existingPeers peer))

/-- The loop body of `updatePhaseInit.removeInvalidObjectPeers`: walk the
stored peers, call `Backend.DeletePeer` on every invalid one, continue past
failures, and collect the deletion errors.  Returns the IDs passed to
`DeletePeer` (in order) and the collected errors (in order).  `deletePeer`
is the collaborator's per-ID response. -/
def removeInvalidPeersLoop (existingPeers : List String)
    (deletePeer : String → Option GoError) : List Peer → List String × List GoError
  | [] => ([], [])
  | peer :: rest =>
    let acc := removeInvalidPeersLoop existingPeers deletePeer rest
    if !(invalidPeers existingPeers [peer.id]) then acc
    else
      match deletePeer peer.id with
      | some e => (peer.id :: acc.1, e :: acc.2)
      | none => (peer.id :: acc.1, acc.2)

/-- `updatePhaseInit.removeInvalidObjectPeers` after a successful
`Backend.GetPeers`: the attempted deletions and the
`trace.NewAggregate` of the collected errors. -/
def removeInvalidObjectPeers (existingPeers : List String)
    (deletePeer : String → Option GoError) (peers : List Peer) :
    List String × Option GoError :=
  let acc := removeInvalidPeersLoop existingPeers deletePeer peers
  (acc.1, newAggregate acc.2)

/-! ### Server-local init executor (`updatePhaseInitServer`) -/

/-- `updateRuntimeConfigLabels`: a "not found" result from the
installed-configuration-package lookup falls back to the first
configuration package and marks it installed; a successful lookup needs no
update.  `findInstalled` and `findConfig` are the
`pack.FindInstalledConfigPackage` / `pack.FindConfigPackage` collaborator
results. -/
def updateRuntimeConfigLabels (findInstalled : Except GoError Locator)
    (findConfig : Except GoError Locator) : Except GoError (List LabelUpdate) :=
  match findInstalled with
  | .ok _ =>
    -- No update necessary
    .ok []
  | .error e =>
    if !(IsNotFound e) then .error (traceWrap e "")
    else
      -- Fall back to first configuration package
      match findConfig with
      | .error e2 => .error (traceWrap e2 "")
      | .ok runtimeConfig =>
        -- Mark this configuration package as installed
        .ok [⟨runtimeConfig, InstalledLabels, []⟩]

/-- `updateTeleportConfigLabels`: analogous fallback for the teleport node
configuration package.  `findPackage` and `findLatest` are the
`pack.FindPackage` / `pack.FindLatestPackageCustom` collaborator
results. -/
def updateTeleportConfigLabels (findPackage : Except GoError Locator)
    (findLatest : Except GoError Locator) : Except GoError (List LabelUpdate) :=
  match findPackage with
  | .ok _ =>
    -- No update necessary
    .ok []
  | .error e =>
    if !(IsNotFound e) then .error (traceWrap e "")
    else
      -- Fall back to latest available package
      match findLatest with
      | .error e2 => .error (traceWrap e2 "")
      | .ok configPackage =>
        -- Mark this configuration package as installed
        .ok [⟨configPackage,
          [(PurposeLabel, PurposeTeleportNodeConfig), (InstalledLabel, InstalledLabel)], []⟩]

/-- `updateRuntimeSecretLabels`: a failing secrets-package lookup aborts; a
"not found" result from the installed-package lookup marks the secrets
package installed, while success needs no update.  `findSecrets` is the
`pack.FindSecretsPackage` result and `findInstalled` the error (if any) of
`pack.FindInstalledPackage`. -/
def updateRuntimeSecretLabels (findSecrets : Except GoError Locator)
    (findInstalled : Option GoError) : Except GoError (List LabelUpdate) :=
  match findSecrets with
  | .error e => .error (traceWrap e "")
  | .ok secretsPackage =>
    match findInstalled with
    | some e =>
      if !(IsNotFound e) then .error (traceWrap e "")
      else
        -- Mark this secrets package as installed
        .ok [⟨secretsPackage, InstalledLabels, []⟩]
    | none =>
      -- No update necessary
      .ok []

/-- The collaborator responses consumed by `updatePhaseInitServer` on one
server: the installed runtime package of the server and the results of the
package-service lookups and label updates. -/
structure InitServerWorld where
  installedRuntime : Locator
  findInstalledConfig : Except GoError Locator
  findConfig : Except GoError Locator
  findTeleport : Except GoError Locator
  findLatestTeleport : Except GoError Locator
  findSecrets : Except GoError Locator
  findInstalledSecret : Option GoError
  updatePackageLabels : LabelUpdate → Option GoError

/-- The label-update list built by
`updatePhaseInitServer.updateExistingPackageLabels` before its apply loop:
runtime-config, secret and teleport-config fallback updates, the installed
runtime package relabel, and the legacy sibling-runtime clear. -/
def computeLabelUpdates (w : InitServerWorld) : Except GoError (List LabelUpdate) :=
  match updateRuntimeConfigLabels w.findInstalledConfig w.findConfig with
  | .error e => .error (traceWrap e "")
  | .ok runtimeConfigLabels =>
  match updateTeleportConfigLabels w.findTeleport w.findLatestTeleport with
  | .error e => .error (traceWrap e "")
  | .ok teleportConfigLabels =>
  match updateRuntimeSecretLabels w.findSecrets w.findInstalledSecret with
  | .error e => .error (traceWrap e "")
  | .ok secretLabels =>
  let updates := runtimeConfigLabels ++ secretLabels ++ teleportConfigLabels ++
    [⟨w.installedRuntime, CombineLabels RuntimePackageLabels InstalledLabels, []⟩]
  let updates := if IsLegacyRuntimePackage w.installedRuntime then
      let runtimePackageToClear :=
        if w.installedRuntime.name == LegacyPlanetMaster.name then
          LegacyPlanetNode.WithLiteralVersion w.installedRuntime.version
        else if w.installedRuntime.name == LegacyPlanetNode.name then
          LegacyPlanetMaster.WithLiteralVersion w.installedRuntime.version
        else zeroLocator
      updates ++ [⟨runtimePackageToClear, RuntimePackageLabels, [InstalledLabel]⟩]
    else updates
  .ok updates

/-- The apply loop of `updateExistingPackageLabels`: call
`UpdatePackageLabels` for each update in order; a "not found" response is
ignored and the loop continues, any other error aborts the loop and is
returned.  Returns the updates actually passed to `UpdatePackageLabels`
(in order) and the loop's result. -/
def applyLabelUpdates (resp : LabelUpdate → Option GoError) :
    List LabelUpdate → List LabelUpdate × Option GoError
  | [] => ([], none)
  | u :: rest =>
    match resp u with
    | some e =>
      if !(IsNotFound e) then ([u], some (traceWrap e ""))
      else
        let acc := applyLabelUpdates resp rest
        (u :: acc.1, acc.2)
    | none =>
      let acc := applyLabelUpdates resp rest
      (u :: acc.1, acc.2)

/-- `updatePhaseInitServer.updateExistingPackageLabels`: build the update
list, then apply it with the absent-safe loop. -/
def updateExistingPackageLabels (w : InitServerWorld) :
    List LabelUpdate × Option GoError :=
  match computeLabelUpdates w with
  | .error e => ([], some e)
  | .ok updates => applyLabelUpdates w.updatePackageLabels updates

/-- `updatePhaseInitServer.Execute`: update the existing package labels. -/
def updatePhaseInitServerExecute (w : InitServerWorld) : Option GoError :=
  match (updateExistingPackageLabels w).2 with
  | some e => some (traceWrap e "failed to update existing package labels")
  | none => none

/-- `updatePhaseInitServer.Rollback` is a no-op for this phase. -/
def updatePhaseInitServerRollback (_ctx : GoContext) : Option GoError := none

/-- `updatePhaseInitServer.PreCheck` is a no-op for this phase. -/
def updatePhaseInitServerPreCheck (_ctx : GoContext) : Option GoError := none

/-- `updatePhaseInitServer.PostCheck` is a no-op for this phase. -/
def updatePhaseInitServerPostCheck (_ctx : GoContext) : Option GoError := none

/-- `updatePhaseInit.PreCheck` is a no-op for this phase. -/
def updatePhaseInitPreCheck (_ctx : GoContext) : Option GoError := none

/-- `updatePhaseInit.PostCheck` is a no-op for this phase. -/
def updatePhaseInitPostCheck (_ctx : GoContext) : Option GoError := none

/-! ### The composed `updatePhaseInit.Execute` -/

/-- The state and collaborator responses visible to one run of
`updatePhaseInit.Execute`: the stored cluster record, the phase's cached
existing configuration, and the responses of every external call the phase
makes.  `svcUserIsEmpty` / `dockerIsEmpty` / `dnsIsEmpty` stand for the
external `IsEmpty` methods of the storage types. -/
structure World where
  site : Site
  svcUserIsEmpty : OSUser → Bool
  dockerIsEmpty : DockerConfig → Bool
  dnsIsEmpty : DNSConfig → Bool
  usersCreateAdminAgent : Option GoError
  getOrCreateServiceUser : Except GoError SysUser
  rpcInitCredentials : Except GoError Locator
  planServers : List ServerRec
  existingDNS : DNSConfig
  existingDocker : DockerConfig
  existingPeers : List String
  getPeers : Except GoError (List Peer)
  deletePeer : String → Option GoError
  init : Option InitServerWorld
  removeLegacyErr : Option GoError

/-- The object-peer cleanup step of `Execute`:
`Backend.GetPeers` followed by `removeInvalidObjectPeers`. -/
def removeInvalidObjectPeersStep (w : World) : Option GoError :=
  match w.getPeers with
  | .error e => some (traceWrap e "")
  | .ok peers => (removeInvalidObjectPeers w.existingPeers w.deletePeer peers).2

/-- `updatePhaseInit.Execute`: remove the legacy update directory (failure
only logged), create the admin agent, upsert the service user, init RPC
credentials, update cluster roles, DNS and Docker configuration, clean up
invalid object peers, and run the optional server-local init.  Returns the
phase error, the stored cluster record afterwards, and the total number of
`Backend.UpdateSite` writes. -/
def executeInit (w : World) : SiteStep :=
  -- removeLegacyUpdateDirectory: a failure is only warned about
  let _legacyWarning := w.removeLegacyErr
  match createAdminAgent w.usersCreateAdminAgent with
  | some e => ⟨some (traceWrap e "failed to create cluster admin agent"), w.site, 0⟩
  | none =>
  let r1 := upsertServiceUser w.svcUserIsEmpty w.getOrCreateServiceUser w.site
  match r1.err with
  | some e => ⟨some (traceWrap e "failed to upsert service user"), r1.site, r1.writes⟩
  | none =>
  match initRPCCredentials w.rpcInitCredentials with
  | some e => ⟨some (traceWrap e "failed to init RPC credentials"), r1.site, r1.writes⟩
  | none =>
  let r2 := updateClusterRoles w.planServers r1.site
  match r2.err with
  | some e => ⟨some (traceWrap e "failed to update RPC credentials"), r2.site, r1.writes + r2.writes⟩
  | none =>
  let r3 := updateClusterDNSConfig w.dnsIsEmpty w.existingDNS r2.site
  match r3.err with
  | some e => ⟨some (traceWrap e "failed to update DNS configuration"), r3.site,
      r1.writes + r2.writes + r3.writes⟩
  | none =>
  let r4 := updateDockerConfig w.dockerIsEmpty w.existingDocker r3.site
  match r4.err with
  | some e => ⟨some (traceWrap e "failed to update Docker configuration"), r4.site,
      r1.writes + r2.writes + r3.writes + r4.writes⟩
  | none =>
  let writes := r1.writes + r2.writes + r3.writes + r4.writes
  match removeInvalidObjectPeersStep w with
  | some e => ⟨some (traceWrap e "failed to clean up object peers"), r4.site, writes⟩
  | none =>
  match w.init with
  | some iw =>
    match updatePhaseInitServerExecute iw with
    | some e => ⟨some (traceWrap e ""), r4.site, writes⟩
    | none => ⟨none, r4.site, writes⟩
  | none => ⟨none, r4.site, writes⟩

/-! ### Rollback (`updatePhaseInit.Rollback`) -/

/-- The callback `removeConfiguredPackages` hands to
`pack.ForeachPackageInRepo`: delete a package exactly when it carries this
operation's operation-ID label. -/
def removeConfiguredPackage (opID : String)
    (deletePackage : Locator → Option GoError) (e : PackageEnvelope) : Option GoError :=
  if e.HasLabel OperationIDLabel opID then deletePackage e.locator else none

/-- Modelled from the spec: `pack.ForeachPackageInRepo` (package-service
code outside the provided sources) applies the callback to every package
of the operation's repository in order, aborting at the first error, per
the package-repository collaborator contract of the spec (lookup,
label-based filter, delete). -/
def ForeachPackageInRepo (fn : PackageEnvelope → Option GoError) :
    List PackageEnvelope → Option GoError
  | [] => none
  | e :: rest =>
    match fn e with
    | some err => some err
    | none => ForeachPackageInRepo fn rest

/-- The locators `removeConfiguredPackages` passes to
`Packages.DeletePackage`, in iteration order (stopping after a failing
deletion, as `ForeachPackageInRepo` aborts there). -/
def configuredPackageDeletions (opID : String)
    (deletePackage : Locator → Option GoError) : List PackageEnvelope → List Locator
  | [] => []
  | e :: rest =>
    if e.HasLabel OperationIDLabel opID then
      match deletePackage e.locator with
      | some _ => [e.locator]
      | none => e.locator :: configuredPackageDeletions opID deletePackage rest
    else configuredPackageDeletions opID deletePackage rest

/-- `updatePhaseInit.removeConfiguredPackages`: delete every package in the
operation's repository marked with this operation's operation-id label. -/
def removeConfiguredPackages (opID : String) (repo : List PackageEnvelope)
    (deletePackage : Locator → Option GoError) : Option GoError :=
  ForeachPackageInRepo (removeConfiguredPackage opID deletePackage) repo

/-- `updatePhaseInit.Rollback`: roll back the optional server-local init
(a no-op), then remove the packages configured during the init phase. -/
def updatePhaseInitRollback (ctx : GoContext) (hasInit : Bool) (opID : String)
    (repo : List PackageEnvelope) (deletePackage : Locator → Option GoError) :
    Option GoError :=
  if hasInit then
    match updatePhaseInitServerRollback ctx with
    | some e => some (traceWrap e "")
    | none => removeConfiguredPackages opID repo deletePackage
  else removeConfiguredPackages opID repo deletePackage

/-! ### Executor construction -/

/-- `storage.UpdateServer` as consumed by the init executors: the server's
installed runtime package plus the remaining fields. -/
structure UpdateServerRec where
  runtimeInstalled : Locator
  rest : Nat
  deriving DecidableEq, Repr

/-- The `Update` part of a phase's data payload. -/
structure UpdateOperationData where
  servers : List UpdateServerRec
  deriving DecidableEq, Repr

/-- A phase's data payload (`storage.OperationPhaseData`) as consumed by
the init executor constructors. -/
structure PhaseData where
  package : Option Locator
  installedPackage : Option Locator
  update : Option UpdateOperationData
  deriving DecidableEq, Repr

/-- The read-only collaborator calls `NewUpdatePhaseInitLeader` performs
after validating its input, in call order. -/
structure LeaderDeps where
  getLocalSite : Except GoError Site
  getSiteOperation : Except GoError Nat
  getCompletedInstallOperation : Except GoError Nat
  getApp : Except GoError Nat
  getInstalledApp : Except GoError Nat

/-- `NewUpdatePhaseInitLeader`: validates the phase data (application
package and installed package must be present) before any collaborator
call, then performs its read-only lookups in order.  Returns the
construction result together with the number of collaborator calls
made. -/
def NewUpdatePhaseInitLeader (pd : Option PhaseData) (deps : LeaderDeps) :
    Except GoError Unit × Nat :=
  match pd with
  | none => (.error (.err .badParameter "no application package specified for phase"), 0)
  | some data =>
    match data.package with
    | none => (.error (.err .badParameter "no application package specified for phase"), 0)
    | some _ =>
      match data.installedPackage with
      | none =>
        (.error (.err .badParameter "no installed application package specified for phase"), 0)
      | some _ =>
        match deps.getLocalSite with
        | .error e => (.error (traceWrap e ""), 1)
        | .ok _ =>
          match deps.getSiteOperation with
          | .error e => (.error (traceWrap e ""), 2)
          | .ok _ =>
            match deps.getCompletedInstallOperation with
            | .error e => (.error (traceWrap e ""), 3)
            | .ok _ =>
              match deps.getApp with
              | .error e => (.error (traceWrap e "failed to query application"), 4)
              | .ok _ =>
                match deps.getInstalledApp with
                | .error e => (.error (traceWrap e "failed to query installed application"), 5)
                | .ok _ => (.ok (), 5)

/-- `NewUpdatePhaseInitServer`: rejects a phase whose `Update` data is
absent or whose server list is empty; otherwise the executor acts on the
first server.  It performs no collaborator calls at all. -/
def NewUpdatePhaseInitServer (update : Option UpdateOperationData) :
    Except GoError UpdateServerRec :=
  match update with
  | none => .error (.err .badParameter "no server specified for phase")
  | some u =>
    match u.servers with
    | [] => .error (.err .badParameter "no server specified for phase")
    | s :: _ => .ok s

/-! ### Sample values used by concrete instantiations -/

/-- A sample stored cluster record with non-empty service user, Docker and
DNS configuration. -/
def sampleSite : Site :=
  ⟨⟨"planet", "980665", "980665"⟩,
    ⟨⟨"overlay2", []⟩, [⟨"10.0.0.1", "master", 7⟩, ⟨"10.0.0.2", "", 9⟩], 3⟩,
    ⟨["127.0.0.2"], 53⟩, 5⟩

/-- Sample collaborator responses for the server-local init executor, all
successful. -/
def sampleInitWorld : InitServerWorld :=
  ⟨⟨"example.com", "planet", "1.0.0"⟩,
    .ok ⟨"example.com", "planet-config", "1.0.0"⟩,
    .ok ⟨"example.com", "planet-config", "1.0.0"⟩,
    .ok ⟨"example.com", "teleport-node-config", "1.0.0"⟩,
    .ok ⟨"example.com", "teleport-node-config", "1.0.0"⟩,
    .ok ⟨"example.com", "rpc-secrets", "1.0.0"⟩,
    none, fun _ => none⟩

/-- A sample world for `updatePhaseInit.Execute` in which every
collaborator call succeeds, with plausible emptiness predicates for the
storage types. -/
def sampleWorld : World :=
  ⟨sampleSite,
    fun u => u.name == "",
    fun d => d.storageDriver == "",
    fun d => d.addrs.isEmpty,
    none,
    .ok ⟨"planet", 980665, 980665⟩,
    .ok ⟨"example.com", "rpc-creds", "1.0.0"⟩,
    [⟨"10.0.0.1", "master", 1⟩, ⟨"10.0.0.2", "node", 2⟩],
    ⟨["127.0.0.2"], 53⟩,
    ⟨"overlay2", []⟩,
    ["peer-1"],
    .ok [⟨"peer-1", 0⟩, ⟨"peer-2", 0⟩],
    fun _ => none,
    some sampleInitWorld,
    none⟩

/-! ### Theorems -/

/-- Helper: `invalidPeers` on a single peer is exactly non-membership in
the existing object peers. -/
theorem invalidPeers_singleton (ex : List String) (id : String) :
    invalidPeers ex [id] = !(StringInSlice ex id) := by
  simp [invalidPeers]

/-- C7: For every context, `PreCheck` and `PostCheck` of both update init
executors return nil; they consume no state and produce no state change,
so they are safe to call any number of times in any order. -/
theorem preCheck_postCheck_noop (ctx : GoContext) :
    updatePhaseInitPreCheck ctx = none ∧
    updatePhaseInitPostCheck ctx = none ∧
    updatePhaseInitServerPreCheck ctx = none ∧
    updatePhaseInitServerPostCheck ctx = none :=
  ⟨rfl, rfl, rfl, rfl⟩

/-- C6: `NewUpdatePhaseInitLeader` rejects a phase with nil `Data`, nil
`Package` or nil `InstalledPackage` with a validation error, making zero
collaborator calls, and `NewUpdatePhaseInitServer` rejects nil `Update`
data or an empty server list; in all these cases no executor is
returned. -/
theorem constructor_validation :
    (∀ deps, NewUpdatePhaseInitLeader none deps =
        (.error (.err .badParameter "no application package specified for phase"), 0)) ∧
    (∀ deps d, d.package = none → NewUpdatePhaseInitLeader (some d) deps =
        (.error (.err .badParameter "no application package specified for phase"), 0)) ∧
    (∀ deps d pkg, d.package = some pkg → d.installedPackage = none →
        NewUpdatePhaseInitLeader (some d) deps =
        (.error (.err .badParameter "no installed application package specified for phase"), 0)) ∧
    (NewUpdatePhaseInitServer none =
        .error (.err .badParameter "no server specified for phase")) ∧
    (∀ u, u.servers = [] → NewUpdatePhaseInitServer (some u) =
        .error (.err .badParameter "no server specified for phase")) := by
  refine ⟨fun _ => rfl, ?_, ?_, rfl, ?_⟩
  · intro deps d h
    simp [NewUpdatePhaseInitLeader, h]
  · intro deps d pkg h1 h2
    simp [NewUpdatePhaseInitLeader, h1, h2]
  · intro u h
    simp [NewUpdatePhaseInitServer, h]

/-- Witness for C6 at concrete invalid inputs. -/
theorem constructor_validation_witness :
    ((⟨some zeroLocator, none, none⟩ : PhaseData).package = some zeroLocator ∧
      (⟨some zeroLocator, none, none⟩ : PhaseData).installedPackage = none) ∧
    NewUpdatePhaseInitLeader (some ⟨some zeroLocator, none, none⟩)
        ⟨.error (.err .other "x"), .ok 0, .ok 0, .ok 0, .ok 0⟩ =
      (.error (.err .badParameter "no installed application package specified for phase"), 0) ∧
    NewUpdatePhaseInitServer (some ⟨[]⟩) =
      .error (.err .badParameter "no server specified for phase") :=
  ⟨⟨rfl, rfl⟩,
    constructor_validation.2.2.1 ⟨.error (.err .other "x"), .ok 0, .ok 0, .ok 0, .ok 0⟩
      ⟨some zeroLocator, none, none⟩ zeroLocator rfl rfl,
    constructor_validation.2.2.2.2 ⟨[]⟩ rfl⟩

/-- C3: Rollback of the update init phase is exactly the removal of the
packages labelled with this operation's ID: the leader's `Rollback` equals
`removeConfiguredPackages` (the server-local rollback being a no-op), the
deletion requests are exactly the labelled packages of the operation's
repository when deletions succeed, nothing is deleted and nil is returned
when no labelled package exists, and `updatePhaseInitServer.Rollback`
always returns nil. -/
theorem updateInit_rollback_scope :
    (∀ ctx hasInit opID repo dp,
        updatePhaseInitRollback ctx hasInit opID repo dp =
          removeConfiguredPackages opID repo dp) ∧
    (∀ opID repo dp,
        (∀ e ∈ repo, e.HasLabel OperationIDLabel opID = true → dp e.locator = none) →
        removeConfiguredPackages opID repo dp = none ∧
        configuredPackageDeletions opID dp repo =
          (repo.filter (fun e => e.HasLabel OperationIDLabel opID)).map PackageEnvelope.locator) ∧
    (∀ opID repo dp, (∀ e ∈ repo, e.HasLabel OperationIDLabel opID = false) →
        removeConfiguredPackages opID repo dp = none ∧
        configuredPackageDeletions opID dp repo = []) ∧
    (∀ ctx, updatePhaseInitServerRollback ctx = none) := by
  refine ⟨?_, ?_, ?_, fun _ => rfl⟩
  · intro ctx hasInit opID repo dp
    cases hasInit <;> rfl
  · intro opID repo dp h
    induction repo with
    | nil => exact ⟨rfl, rfl⟩
    | cons e rest ih =>
      have he := h e (by simp)
      have hrest : ∀ x ∈ rest, x.HasLabel OperationIDLabel opID = true → dp x.locator = none :=
        fun x hx => h x (by simp [hx])
      obtain ⟨ih1, ih2⟩ := ih hrest
      by_cases hl : e.HasLabel OperationIDLabel opID = true
      · refine ⟨?_, ?_⟩
        · simp only [removeConfiguredPackages, ForeachPackageInRepo,
            removeConfiguredPackage, hl, if_true, he hl]
          exact ih1
        · simp only [configuredPackageDeletions, hl, if_true, he hl,
            List.filter_cons, List.map_cons]
          simp [hl, ih2]
      · have hl' : e.HasLabel OperationIDLabel opID = false := by
          simpa using hl
        refine ⟨?_, ?_⟩
        · simpa only [removeConfiguredPackages, ForeachPackageInRepo,
            removeConfiguredPackage, hl', if_false] using ih1
        · simp only [configuredPackageDeletions, hl', if_false, List.filter_cons]
          simp [hl', ih2]
  · intro opID repo dp h
    induction repo with
    | nil => exact ⟨rfl, rfl⟩
    | cons e rest ih =>
      have he : e.HasLabel OperationIDLabel opID = false := h e (by simp)
      have hrest : ∀ x ∈ rest, x.HasLabel OperationIDLabel opID = false :=
        fun x hx => h x (by simp [hx])
      obtain ⟨ih1, ih2⟩ := ih hrest
      exact ⟨by simpa only [removeConfiguredPackages, ForeachPackageInRepo,
          removeConfiguredPackage, he, if_false] using ih1,
        by simpa only [configuredPackageDeletions, he, if_false] using ih2⟩

/-- Witness for C3 on a concrete repository: of two packages only the one
labelled with the operation ID is deleted. -/
theorem updateInit_rollback_scope_witness :
    removeConfiguredPackages "op-1"
        [⟨⟨"r", "a", "1"⟩, [(OperationIDLabel, "op-1")]⟩, ⟨⟨"r", "b", "1"⟩, []⟩]
        (fun _ => none) = none ∧
    configuredPackageDeletions "op-1" (fun _ => none)
        [⟨⟨"r", "a", "1"⟩, [(OperationIDLabel, "op-1")]⟩, ⟨⟨"r", "b", "1"⟩, []⟩] =
      [⟨"r", "a", "1"⟩] := by
  have h := updateInit_rollback_scope.2.1 "op-1"
    [⟨⟨"r", "a", "1"⟩, [(OperationIDLabel, "op-1")]⟩, ⟨⟨"r", "b", "1"⟩, []⟩]
    (fun _ => none) (by intro e _ _; rfl)
  exact ⟨h.1, by rw [h.2]; rfl⟩

/-- C4: `removeInvalidObjectPeers` attempts to delete exactly the peers
whose ID is not among the existing object-peer IDs — independently of any
deletion failures, so the loop never stops early — returns the
`trace.NewAggregate` of exactly the deletion errors that occurred (nil
when none occurred), and never deletes a peer whose ID is among the
existing peers. -/
theorem removeInvalidObjectPeers_spec :
    (∀ ex dp peers, (removeInvalidPeersLoop ex dp peers).1 =
        (peers.filter (fun p => !(StringInSlice ex p.id))).map Peer.id) ∧
    (∀ ex dp peers, (removeInvalidPeersLoop ex dp peers).2 =
        (removeInvalidPeersLoop ex dp peers).1.filterMap dp) ∧
    (∀ ex dp peers, removeInvalidObjectPeers ex dp peers =
        ((removeInvalidPeersLoop ex dp peers).1,
          newAggregate (removeInvalidPeersLoop ex dp peers).2)) ∧
    (∀ ex dp peers, (∀ id ∈ (removeInvalidPeersLoop ex dp peers).1, dp id = none) →
        (removeInvalidObjectPeers ex dp peers).2 = none) ∧
    (∀ ex dp peers, (removeInvalidPeersLoop ex dp peers).2 ≠ [] →
        (removeInvalidObjectPeers ex dp peers).2 =
          some (.aggregate (removeInvalidPeersLoop ex dp peers).2)) ∧
    (∀ ex dp peers id, StringInSlice ex id = true →
        id ∉ (removeInvalidPeersLoop ex dp peers).1) := by
  have h1 : ∀ (ex : List String) dp peers, (removeInvalidPeersLoop ex dp peers).1 =
      (peers.filter (fun p => !(StringInSlice ex p.id))).map Peer.id := by
    intro ex dp peers
    induction peers with
    | nil => rfl
    | cons p rest ih =>
      simp only [removeInvalidPeersLoop, invalidPeers_singleton, List.filter_cons]
      by_cases hm : StringInSlice ex p.id = true
      · simp [hm, ih]
      · have hm' : StringInSlice ex p.id = false := by simpa using hm
        cases hdp : dp p.id <;> simp [hm', hdp, ih]
  have h2 : ∀ (ex : List String) dp peers, (removeInvalidPeersLoop ex dp peers).2 =
      (removeInvalidPeersLoop ex dp peers).1.filterMap dp := by
    intro ex dp peers
    induction peers with
    | nil => rfl
    | cons p rest ih =>
      simp only [removeInvalidPeersLoop, invalidPeers_singleton]
      by_cases hm : StringInSlice ex p.id = true
      · simp [hm, ih]
      · have hm' : StringInSlice ex p.id = false := by simpa using hm
        cases hdp : dp p.id <;> simp [hm', hdp, ih, List.filterMap_cons]
  refine ⟨h1, h2, fun _ _ _ => rfl, ?_, ?_, ?_⟩
  · intro ex dp peers h
    have : (removeInvalidPeersLoop ex dp peers).2 = [] := by
      rw [h2]
      rw [List.filterMap_eq_nil_iff]
      intro a ha
      exact h a ha
    simp [removeInvalidObjectPeers, this, newAggregate]
  · intro ex dp peers h
    simp only [removeInvalidObjectPeers, newAggregate]
    rw [if_neg (by simpa using h)]
  · intro ex dp peers id hmem
    rw [h1]
    simp only [List.mem_map, List.mem_filter]
    rintro ⟨p, ⟨_, hp⟩, hpid⟩
    rw [hpid] at hp
    simp [hmem] at hp

/-- Witness for C4: of three stored peers, the two absent from the
existing-peer list are both attempted even though the first deletion
fails, and the aggregate holds exactly that one error. -/
theorem removeInvalidObjectPeers_spec_witness :
    (removeInvalidPeersLoop ["a"]
        (fun id => if id == "b" then some (.err .other "boom") else none)
        [⟨"b", 0⟩, ⟨"a", 0⟩, ⟨"c", 0⟩]).1 = ["b", "c"] ∧
    "a" ∉ (removeInvalidPeersLoop ["a"]
        (fun id => if id == "b" then some (.err .other "boom") else none)
        [⟨"b", 0⟩, ⟨"a", 0⟩, ⟨"c", 0⟩]).1 ∧
    (removeInvalidObjectPeers ["a"]
        (fun id => if id == "b" then some (.err .other "boom") else none)
        [⟨"b", 0⟩, ⟨"a", 0⟩, ⟨"c", 0⟩]).2 =
      some (.aggregate [.err .other "boom"]) := by
  refine ⟨?_, ?_, ?_⟩
  · rw [removeInvalidObjectPeers_spec.1]; rfl
  · exact removeInvalidObjectPeers_spec.2.2.2.2.2 ["a"] _ _ "a" rfl
  · have he : (removeInvalidPeersLoop ["a"]
        (fun id => if id == "b" then some (.err .other "boom") else none)
        [⟨"b", 0⟩, ⟨"a", 0⟩, ⟨"c", 0⟩]).2 = [GoError.err .other "boom"] := rfl
    have h := removeInvalidObjectPeers_spec.2.2.2.2.1 ["a"]
      (fun id => if id == "b" then some (.err .other "boom") else none)
      [⟨"b", 0⟩, ⟨"a", 0⟩, ⟨"c", 0⟩] (by rw [he]; simp)
    rw [h, he]

/-- C5: the label-update apply loop ignores a "not found" response for one
update and still applies the remaining updates, while any other error
aborts the loop and is returned; `updateExistingPackageLabels` is exactly
that loop over the computed updates; and `updateRuntimeConfigLabels` /
`updateRuntimeSecretLabels` treat a "not found" result of the
installed-package lookup as the signal to fall back, not as a failure. -/
theorem packageLabel_updates_absent_safe :
    (∀ resp (u : LabelUpdate) rest e, resp u = some e → IsNotFound e = true →
        applyLabelUpdates resp (u :: rest) =
          (u :: (applyLabelUpdates resp rest).1, (applyLabelUpdates resp rest).2)) ∧
    (∀ resp (u : LabelUpdate) rest e, resp u = some e → IsNotFound e = false →
        applyLabelUpdates resp (u :: rest) = ([u], some e)) ∧
    (∀ resp (u : LabelUpdate) rest, resp u = none →
        applyLabelUpdates resp (u :: rest) =
          (u :: (applyLabelUpdates resp rest).1, (applyLabelUpdates resp rest).2)) ∧
    (∀ w updates, computeLabelUpdates w = .ok updates →
        updateExistingPackageLabels w = applyLabelUpdates w.updatePackageLabels updates) ∧
    (∀ e cfg, IsNotFound e = true →
        updateRuntimeConfigLabels (.error e) (.ok cfg) = .ok [⟨cfg, InstalledLabels, []⟩]) ∧
    (∀ e fc, IsNotFound e = false →
        updateRuntimeConfigLabels (.error e) fc = .error e) ∧
    (∀ sp e, IsNotFound e = true →
        updateRuntimeSecretLabels (.ok sp) (some e) = .ok [⟨sp, InstalledLabels, []⟩]) ∧
    (∀ sp e, IsNotFound e = false →
        updateRuntimeSecretLabels (.ok sp) (some e) = .error e) := by
  refine ⟨?_, ?_, ?_, ?_, ?_, ?_, ?_, ?_⟩
  · intro resp u rest e h hnf
    simp [applyLabelUpdates, h, hnf]
  · intro resp u rest e h hnf
    simp [applyLabelUpdates, h, hnf, traceWrap]
  · intro resp u rest h
    simp [applyLabelUpdates, h]
  · intro w updates h
    simp [updateExistingPackageLabels, h]
  · intro e cfg hnf
    simp [updateRuntimeConfigLabels, hnf]
  · intro e fc hnf
    simp [updateRuntimeConfigLabels, hnf, traceWrap]
  · intro sp e hnf
    simp [updateRuntimeSecretLabels, hnf]
  · intro sp e hnf
    simp [updateRuntimeSecretLabels, hnf, traceWrap]

/-- Witness for C5 at concrete inputs: a not-found failure on the first
update still applies the second, a permission-style failure aborts, and
the runtime-config lookup falls back on not-found. -/
theorem packageLabel_updates_absent_safe_witness :
    applyLabelUpdates
        (fun u => if u.locator.name == "a" then some (.err .notFound "@a") else none)
        [⟨⟨"r", "a", "1"⟩, [], []⟩, ⟨⟨"r", "b", "1"⟩, [], []⟩] =
      ([⟨⟨"r", "a", "1"⟩, [], []⟩, ⟨⟨"r", "b", "1"⟩, [], []⟩], none) ∧
    applyLabelUpdates (fun _ => some (.err .other "denied"))
        [⟨⟨"r", "a", "1"⟩, [], []⟩, ⟨⟨"r", "b", "1"⟩, [], []⟩] =
      ([⟨⟨"r", "a", "1"⟩, [], []⟩], some (.err .other "denied")) ∧
    updateRuntimeConfigLabels (.error (.err .notFound "missing")) (.ok ⟨"r", "cfg", "1"⟩) =
      .ok [⟨⟨"r", "cfg", "1"⟩, InstalledLabels, []⟩] := by
  refine ⟨?_, ?_, ?_⟩
  · rw [packageLabel_updates_absent_safe.1
      (fun u => if u.locator.name == "a" then some (.err .notFound "@a") else none)
      ⟨⟨"r", "a", "1"⟩, [], []⟩ [⟨⟨"r", "b", "1"⟩, [], []⟩] (.err .notFound "@a") rfl rfl]
    rfl
  · exact packageLabel_updates_absent_safe.2.1 (fun _ => some (.err .other "denied"))
      ⟨⟨"r", "a", "1"⟩, [], []⟩ [⟨⟨"r", "b", "1"⟩, [], []⟩] (.err .other "denied") rfl rfl
  · exact packageLabel_updates_absent_safe.2.2.2.2.1 (.err .notFound "missing")
      ⟨"r", "cfg", "1"⟩ rfl

/-- C1: an "already exists" response while creating the cluster admin
agent or initializing RPC credentials is not an error: the helper returns
nil and `Execute` proceeds exactly as if the call had succeeded; an error
of any other kind is returned by the helper and by `Execute`. -/
theorem updateInit_alreadyExists_convergence :
    (∀ e, IsAlreadyExists e = true → createAdminAgent (some e) = none) ∧
    (∀ e, IsAlreadyExists e = false → createAdminAgent (some e) = some e) ∧
    (∀ e, IsAlreadyExists e = true → initRPCCredentials (.error e) = none) ∧
    (∀ e, IsAlreadyExists e = false → initRPCCredentials (.error e) = some e) ∧
    (∀ w e, w.usersCreateAdminAgent = some e → IsAlreadyExists e = true →
        executeInit w = executeInit { w with usersCreateAdminAgent := none }) ∧
    (∀ w e, w.rpcInitCredentials = .error e → IsAlreadyExists e = true →
        executeInit w = executeInit { w with rpcInitCredentials := .ok zeroLocator }) ∧
    (∀ w e, w.usersCreateAdminAgent = some e → IsAlreadyExists e = false →
        (executeInit w).err = some e) ∧
    (∀ w e, w.rpcInitCredentials = .error e → IsAlreadyExists e = false →
        createAdminAgent w.usersCreateAdminAgent = none →
        (upsertServiceUser w.svcUserIsEmpty w.getOrCreateServiceUser w.site).err = none →
        (executeInit w).err = some e) := by
  refine ⟨?_, ?_, ?_, ?_, ?_, ?_, ?_, ?_⟩
  · intro e h; simp [createAdminAgent, h]
  · intro e h; simp [createAdminAgent, h, traceWrap]
  · intro e h; simp [initRPCCredentials, h]
  · intro e h; simp [initRPCCredentials, h, traceWrap]
  · intro w e hw he
    cases w
    simp only at hw
    subst hw
    simp [executeInit, createAdminAgent, he, removeInvalidObjectPeersStep]
  · intro w e hw he
    cases w
    simp only at hw
    subst hw
    simp [executeInit, initRPCCredentials, he, removeInvalidObjectPeersStep]
  · intro w e hw he
    simp [executeInit, createAdminAgent, hw, he, traceWrap]
  · intro w e hw he hca hup
    simp [executeInit, hca, hup, initRPCCredentials, hw, he, traceWrap]

/-- Witness for C1: on a concrete world an "already exists" admin-agent
response leaves `Execute` identical to the successful-response run, while
errors of other kinds surface from `Execute` unchanged. -/
theorem updateInit_alreadyExists_convergence_witness :
    (executeInit { sampleWorld with usersCreateAdminAgent := some (.err .alreadyExists "exists") } =
      executeInit { sampleWorld with usersCreateAdminAgent := none }) ∧
    createAdminAgent (some (.err .other "boom")) = some (.err .other "boom") ∧
    (executeInit { sampleWorld with usersCreateAdminAgent := some (.err .other "boom") }).err =
      some (.err .other "boom") ∧
    (executeInit { sampleWorld with rpcInitCredentials := .error (.err .other "rpcfail") }).err =
      some (.err .other "rpcfail") :=
  ⟨updateInit_alreadyExists_convergence.2.2.2.2.1 _ (.err .alreadyExists "exists") rfl rfl,
    updateInit_alreadyExists_convergence.2.1 _ rfl,
    updateInit_alreadyExists_convergence.2.2.2.2.2.2.1 _ _ rfl rfl,
    updateInit_alreadyExists_convergence.2.2.2.2.2.2.2 _ _ rfl rfl rfl rfl⟩

/-- C10: `updateClusterRoles` writes back the stored record with only the
`ClusterRole` fields of servers whose role was empty changed — each such
server gets the role of the plan server with the same advertise IP, or
keeps the empty role when no plan server matches — and every other field
of every server and of the record is unchanged. -/
theorem updateClusterRoles_frame (plan : List ServerRec) (site : Site) :
    (updateClusterRoles plan site).err = none ∧
    (updateClusterRoles plan site).writes = 1 ∧
    (updateClusterRoles plan site).site.serviceUser = site.serviceUser ∧
    (updateClusterRoles plan site).site.dnsConfig = site.dnsConfig ∧
    (updateClusterRoles plan site).site.rest = site.rest ∧
    (updateClusterRoles plan site).site.clusterState.docker = site.clusterState.docker ∧
    (updateClusterRoles plan site).site.clusterState.rest = site.clusterState.rest ∧
    (updateClusterRoles plan site).site.clusterState.servers.length =
      site.clusterState.servers.length ∧
    (∀ i, i < site.clusterState.servers.length →
      ∀ h : i < site.clusterState.servers.length,
      let s := site.clusterState.servers.get ⟨i, h⟩
      (updateClusterRoles plan site).site.clusterState.servers.get? i =
        some (if s.clusterRole ≠ "" then s
          else { s with clusterRole := (planServerByIP plan s.advertiseIP).clusterRole })) ∧
    (∀ ip, (∀ p ∈ plan, p.advertiseIP ≠ ip) → planServerByIP plan ip = zeroServerRec) := by
  refine ⟨rfl, rfl, rfl, rfl, rfl, rfl, rfl, by simp [updateClusterRoles], ?_, ?_⟩
  · intro i hi h
    simp only [updateClusterRoles, List.get?_eq_getElem?, List.getElem?_map,
      List.getElem?_eq_getElem h, Option.map_some]
    simp [assignClusterRole, List.get_eq_getElem]
  · intro ip hip
    simp only [planServerByIP]
    rw [List.find?_eq_none.mpr]
    · rfl
    · intro p hp
      simp [hip p (List.mem_reverse.mp hp)]

/-- Witness for C10 on a concrete record and plan: the server with an
empty role receives the plan's role, the one with a role keeps it. -/
theorem updateClusterRoles_frame_witness :
    (updateClusterRoles [⟨"10.0.0.2", "node", 0⟩] sampleSite).site.clusterState.servers.get? 1 =
      some ⟨"10.0.0.2", "node", 9⟩ ∧
    (updateClusterRoles [⟨"10.0.0.2", "node", 0⟩] sampleSite).site.clusterState.servers.get? 0 =
      some ⟨"10.0.0.1", "master", 7⟩ ∧
    planServerByIP [⟨"10.0.0.2", "node", 0⟩] "10.0.0.9" = zeroServerRec := by
  refine ⟨?_, ?_, ?_⟩
  · have h := (updateClusterRoles_frame [⟨"10.0.0.2", "node", 0⟩] sampleSite).2.2.2.2.2.2.2.2.1
      1 (by simp [sampleSite]) (by simp [sampleSite])
    rw [h]; rfl
  · have h := (updateClusterRoles_frame [⟨"10.0.0.2", "node", 0⟩] sampleSite).2.2.2.2.2.2.2.2.1
      0 (by simp [sampleSite]) (by simp [sampleSite])
    rw [h]; rfl
  · exact (updateClusterRoles_frame [⟨"10.0.0.2", "node", 0⟩] sampleSite).2.2.2.2.2.2.2.2.2
      "10.0.0.9" (by intro p hp; simp at hp; simp [hp])

/-- C9: `ClusterConfiguration` returns an error whenever the updated pod
subnet equals the existing one or the updated service subnet equals the
existing one — including when both compared values are empty, so leaving a
subnet unspecified on both sides is always rejected. -/
theorem clusterConfiguration_rejects_equal_subnets
    (isEmpty : GlobalConfig → Bool) (existing update : GlobalConfig)
    (h : update.podCIDR = existing.podCIDR ∨ update.serviceCIDR = existing.serviceCIDR) :
    (ClusterConfiguration isEmpty existing update).isSome = true := by
  unfold ClusterConfiguration
  split
  · rfl
  · split
    · rfl
    · split
      · rfl
      · split
        · rfl
        · split
          · rfl
          · split
            · rfl
            · split
              · rfl
              · rename_i h6 h7
                rcases h with h | h
                · exact absurd (by simpa using h) h6
                · exact absurd (by simpa using h) h7

/-- Witness for C9: two configurations that both leave the subnets
unspecified are rejected. -/
theorem clusterConfiguration_rejects_equal_subnets_witness :
    (ClusterConfiguration
        (fun g => isCloudConfigEmpty g && g.podCIDR == "" && g.serviceCIDR == "")
        ⟨"aws", "cfg", "", ""⟩ ⟨"aws", "cfg2", "", ""⟩).isSome = true :=
  clusterConfiguration_rejects_equal_subnets _ _ _ (Or.inl rfl)

/-- C8: `KubernetesSubnets` errors exactly when the pod CIDR is non-empty
and unparseable, or parses with a prefix longer than /16, or the service
CIDR is non-empty and unparseable, or both are non-empty valid CIDRs whose
networks overlap (either network contains the other's base address); in
particular two empty inputs validate, and no minimum-size requirement is
imposed on the service subnet. -/
theorem kubernetesSubnets_error_iff (pod svc : String) :
    (KubernetesSubnets pod svc).isSome = true ↔
      (pod ≠ "" ∧ parseCIDR pod = none) ∨
      (∃ n, parseCIDR pod = some n ∧ 16 < n.ones) ∨
      (svc ≠ "" ∧ parseCIDR svc = none) ∨
      (pod ≠ "" ∧ svc ≠ "" ∧ ∃ pn sn, parseCIDR pod = some pn ∧ parseCIDR svc = some sn ∧
        (pn.Contains sn.ip = true ∨ sn.Contains pn.ip = true)) := by
  have hempty : parseCIDR "" = none := rfl
  by_cases hp : pod = ""
  · subst hp
    by_cases hs : svc = ""
    · subst hs
      apply iff_of_false
      · simp [KubernetesSubnets]
      · rintro (⟨hne, _⟩ | ⟨n, hn, _⟩ | ⟨hne, _⟩ | ⟨hne, _⟩)
        · exact hne rfl
        · rw [hempty] at hn; cases hn
        · exact hne rfl
        · exact hne rfl
    · cases hsv : parseCIDR svc with
      | none =>
        apply iff_of_true
        · unfold KubernetesSubnets
          simp [hs, hsv]
        · exact Or.inr (Or.inr (Or.inl ⟨hs, rfl⟩))
      | some sn =>
        apply iff_of_false
        · unfold KubernetesSubnets
          simp [hs, hsv]
        · rintro (⟨hne, _⟩ | ⟨n, hn, _⟩ | ⟨_, hc⟩ | ⟨hne, _⟩)
          · exact hne rfl
          · rw [hempty] at hn; cases hn
          · cases hc
          · exact hne rfl
  · cases hpp : parseCIDR pod with
    | none =>
      apply iff_of_true
      · unfold KubernetesSubnets
        simp [hp, hpp]
      · exact Or.inl ⟨hp, rfl⟩
    | some pn =>
      by_cases ho : 16 < pn.ones
      · apply iff_of_true
        · unfold KubernetesSubnets
          simp [hp, hpp, ho]
        · exact Or.inr (Or.inl ⟨pn, rfl, ho⟩)
      · by_cases hs : svc = ""
        · subst hs
          apply iff_of_false
          · unfold KubernetesSubnets
            simp [hp, hpp, ho]
          · rintro (⟨_, hc⟩ | ⟨n, hn, hgt⟩ | ⟨hne, _⟩ | ⟨_, hne, _⟩)
            · cases hc
            · injection hn with hn
              subst hn
              exact absurd hgt ho
            · exact hne rfl
            · exact hne rfl
        · cases hsv : parseCIDR svc with
          | none =>
            apply iff_of_true
            · unfold KubernetesSubnets
              simp [hp, hpp, ho, hs, hsv]
            · exact Or.inr (Or.inr (Or.inl ⟨hs, rfl⟩))
          | some sn =>
            by_cases hov : (pn.Contains sn.ip || sn.Contains pn.ip) = true
            · apply iff_of_true
              · unfold KubernetesSubnets
                simp [hp, hpp, ho, hs, hsv, hov]
              · refine Or.inr (Or.inr (Or.inr ⟨hp, hs, pn, sn, rfl, rfl, ?_⟩))
                simpa [Bool.or_eq_true] using hov
            · apply iff_of_false
              · unfold KubernetesSubnets
                simp [hp, hpp, ho, hs, hsv, hov]
              · rintro (⟨_, hc⟩ | ⟨n, hn, hgt⟩ | ⟨_, hc⟩ | ⟨_, _, pn2, sn2, hpn2, hsn2, hcase⟩)
                · cases hc
                · injection hn with hn
                  subst hn
                  exact absurd hgt ho
                · cases hc
                · injection hpn2 with h1
                  injection hsn2 with h2
                  subst h1
                  subst h2
                  apply hov
                  rcases hcase with hcc | hcc <;> simp [hcc]

/-- `updateClusterRoles` always succeeds and always writes. -/
theorem updateClusterRoles_err (plan : List ServerRec) (s : Site) :
    (updateClusterRoles plan s).err = none := rfl

/-- `updateClusterDNSConfig` always succeeds. -/
theorem updateClusterDNSConfig_err (isE : DNSConfig → Bool) (d : DNSConfig) (s : Site) :
    (updateClusterDNSConfig isE d s).err = none := by
  unfold updateClusterDNSConfig
  split <;> rfl

/-- `updateDockerConfig` always succeeds. -/
theorem updateDockerConfig_err (isE : DockerConfig → Bool) (d : DockerConfig) (s : Site) :
    (updateDockerConfig isE d s).err = none := by
  unfold updateDockerConfig
  split <;> rfl

/-- `updateClusterRoles` leaves the service user unchanged. -/
theorem updateClusterRoles_site_serviceUser (plan : List ServerRec) (s : Site) :
    (updateClusterRoles plan s).site.serviceUser = s.serviceUser := rfl

/-- `updateClusterRoles` leaves the DNS configuration unchanged. -/
theorem updateClusterRoles_site_dns (plan : List ServerRec) (s : Site) :
    (updateClusterRoles plan s).site.dnsConfig = s.dnsConfig := rfl

/-- `updateClusterDNSConfig` leaves the service user unchanged. -/
theorem updateClusterDNSConfig_site_serviceUser (isE : DNSConfig → Bool) (d : DNSConfig)
    (s : Site) : (updateClusterDNSConfig isE d s).site.serviceUser = s.serviceUser := by
  unfold updateClusterDNSConfig
  split <;> rfl

/-- `updateClusterDNSConfig` leaves the server list unchanged. -/
theorem updateClusterDNSConfig_site_servers (isE : DNSConfig → Bool) (d : DNSConfig)
    (s : Site) : (updateClusterDNSConfig isE d s).site.clusterState.servers =
      s.clusterState.servers := by
  unfold updateClusterDNSConfig
  split <;> rfl

/-- `updateDockerConfig` leaves the service user unchanged. -/
theorem updateDockerConfig_site_serviceUser (isE : DockerConfig → Bool) (d : DockerConfig)
    (s : Site) : (updateDockerConfig isE d s).site.serviceUser = s.serviceUser := by
  unfold updateDockerConfig
  split <;> rfl

/-- `updateDockerConfig` leaves the server list unchanged. -/
theorem updateDockerConfig_site_servers (isE : DockerConfig → Bool) (d : DockerConfig)
    (s : Site) : (updateDockerConfig isE d s).site.clusterState.servers =
      s.clusterState.servers := by
  unfold updateDockerConfig
  split <;> rfl

/-- `updateDockerConfig` leaves the DNS configuration unchanged. -/
theorem updateDockerConfig_site_dns (isE : DockerConfig → Bool) (d : DockerConfig)
    (s : Site) : (updateDockerConfig isE d s).site.dnsConfig = s.dnsConfig := by
  unfold updateDockerConfig
  split <;> rfl

/-- A second `upsertServiceUser` run on any record whose service user
matches a successful first run's output succeeds without changing the
record. -/
theorem upsertServiceUser_idem (isE : OSUser → Bool) (resp : Except GoError SysUser)
    (s t : Site) (hs : (upsertServiceUser isE resp s).err = none)
    (ht : t.serviceUser = (upsertServiceUser isE resp s).site.serviceUser) :
    (upsertServiceUser isE resp t).err = none ∧ (upsertServiceUser isE resp t).site = t := by
  by_cases he : isE s.serviceUser
  · cases hr : resp with
    | error e =>
      unfold upsertServiceUser at hs
      rw [if_neg (by simp [he]), hr] at hs
      cases hs
    | ok u =>
      unfold upsertServiceUser at ht
      rw [if_neg (by simp [he]), hr] at ht
      by_cases he2 : isE t.serviceUser
      · cases t with
        | mk su cs dns rest =>
          simp only at ht
          unfold upsertServiceUser
          rw [if_neg (by simp [he2])]
          exact ⟨rfl, by simp [ht]⟩
      · unfold upsertServiceUser
        rw [if_pos (by simp [he2])]
        exact ⟨rfl, rfl⟩
  · unfold upsertServiceUser at ht
    rw [if_pos (by simp [he])] at ht
    have he2 : ¬ isE t.serviceUser = true := by
      rw [ht]
      simpa using he
    unfold upsertServiceUser
    rw [if_pos (by simp [he2])]
    exact ⟨rfl, rfl⟩

/-- A second `updateClusterDNSConfig` run on any record whose DNS
configuration matches a first run's output writes the record back
unchanged. -/
theorem updateClusterDNSConfig_idem (isE : DNSConfig → Bool) (d : DNSConfig)
    (s t : Site) (ht : t.dnsConfig = (updateClusterDNSConfig isE d s).site.dnsConfig) :
    updateClusterDNSConfig isE d t = ⟨none, t, 1⟩ := by
  by_cases he : isE s.dnsConfig
  · unfold updateClusterDNSConfig at ht
    rw [if_pos he] at ht
    simp only at ht
    by_cases he2 : isE t.dnsConfig
    · cases t with
      | mk su cs dns rest =>
        simp only at ht
        unfold updateClusterDNSConfig
        rw [if_pos he2]
        simp [ht]
    · unfold updateClusterDNSConfig
      rw [if_neg he2]
  · unfold updateClusterDNSConfig at ht
    rw [if_neg he] at ht
    have he2 : ¬ isE t.dnsConfig = true := by
      rw [ht]
      simpa using he
    unfold updateClusterDNSConfig
    rw [if_neg he2]

/-- A second `updateDockerConfig` run on any record whose Docker
configuration matches a first run's output succeeds without changing the
record. -/
theorem updateDockerConfig_idem (isE : DockerConfig → Bool) (d : DockerConfig)
    (s t : Site)
    (ht : t.clusterState.docker = (updateDockerConfig isE d s).site.clusterState.docker) :
    (updateDockerConfig isE d t).err = none ∧ (updateDockerConfig isE d t).site = t := by
  by_cases he : isE s.clusterState.docker
  · unfold updateDockerConfig at ht
    rw [if_neg (by simp [he])] at ht
    simp only at ht
    by_cases he2 : isE t.clusterState.docker
    · cases t with
      | mk su cs dns rest =>
        cases cs with
        | mk dk servers csrest =>
          simp only at ht
          unfold updateDockerConfig
          rw [if_neg (by simp [he2])]
          exact ⟨rfl, by simp [ht]⟩
    · unfold updateDockerConfig
      rw [if_pos (by simp [he2])]
      exact ⟨rfl, rfl⟩
  · unfold updateDockerConfig at ht
    rw [if_pos (by simp [he])] at ht
    have he2 : ¬ isE t.clusterState.docker = true := by
      rw [ht]
      simpa using he
    unfold updateDockerConfig
    rw [if_pos (by simp [he2])]
    exact ⟨rfl, rfl⟩

/-- `assignClusterRole` is idempotent on each server. -/
theorem assignClusterRole_idem (plan : List ServerRec) (s : ServerRec) :
    assignClusterRole plan (assignClusterRole plan s) = assignClusterRole plan s := by
  by_cases h : s.clusterRole = ""
  · cases s with
    | mk ip role rest =>
      simp only at h
      subst h
      unfold assignClusterRole
      by_cases h2 : (planServerByIP plan ip).clusterRole = "" <;> simp [h2]
  · unfold assignClusterRole
    rw [if_pos (by simp [h]), if_pos (by simp [h])]

/-- A second `updateClusterRoles` run on any record whose server list
matches a first run's output writes the record back unchanged. -/
theorem updateClusterRoles_idem (plan : List ServerRec) (s t : Site)
    (ht : t.clusterState.servers = (updateClusterRoles plan s).site.clusterState.servers) :
    updateClusterRoles plan t = ⟨none, t, 1⟩ := by
  unfold updateClusterRoles at ht
  simp only at ht
  cases t with
  | mk su cs dns rest =>
    cases cs with
    | mk dk servers csrest =>
      simp only at ht
      unfold updateClusterRoles
      simp only [ht, List.map_map]
      have : (assignClusterRole plan ∘ assignClusterRole plan) =
          fun x => assignClusterRole plan x := by
        funext x
        exact assignClusterRole_idem plan x
      rw [this]

/-- A successful `Execute` run means every fallible step succeeded. -/
theorem executeInit_err_none (site : Site) (svcE : OSUser → Bool)
    (dockE : DockerConfig → Bool) (dnsE : DNSConfig → Bool) (users : Option GoError)
    (gocr : Except GoError SysUser) (rpc : Except GoError Locator) (plan : List ServerRec)
    (exDNS : DNSConfig) (exDocker : DockerConfig) (exPeers : List String)
    (gp : Except GoError (List Peer)) (dp : String → Option GoError)
    (init : Option InitServerWorld) (legacyErr : Option GoError)
    (h : (executeInit ⟨site, svcE, dockE, dnsE, users, gocr, rpc, plan, exDNS, exDocker,
        exPeers, gp, dp, init, legacyErr⟩).err = none) :
    createAdminAgent users = none ∧
    (upsertServiceUser svcE gocr site).err = none ∧
    initRPCCredentials rpc = none ∧
    removeInvalidObjectPeersStep ⟨site, svcE, dockE, dnsE, users, gocr, rpc, plan, exDNS,
      exDocker, exPeers, gp, dp, init, legacyErr⟩ = none ∧
    (∀ iw, init = some iw → updatePhaseInitServerExecute iw = none) := by
  cases hca : createAdminAgent users with
  | some e => simp [executeInit, hca] at h
  | none =>
  cases hup : (upsertServiceUser svcE gocr site).err with
  | some e => simp [executeInit, hca, hup] at h
  | none =>
  cases hrpc : initRPCCredentials rpc with
  | some e => simp [executeInit, hca, hup, hrpc] at h
  | none =>
  cases hpeers : removeInvalidObjectPeersStep ⟨site, svcE, dockE, dnsE, users, gocr, rpc,
      plan, exDNS, exDocker, exPeers, gp, dp, init, legacyErr⟩ with
  | some e =>
    simp [executeInit, hca, hup, hrpc, updateClusterRoles_err, updateClusterDNSConfig_err,
      updateDockerConfig_err, hpeers] at h
  | none =>
  refine ⟨rfl, rfl, rfl, rfl, ?_⟩
  intro iw hiw
  rw [hiw] at hpeers
  cases hex : updatePhaseInitServerExecute iw with
  | some e =>
    simp [executeInit, hca, hup, hrpc, updateClusterRoles_err, updateClusterDNSConfig_err,
      updateDockerConfig_err, hpeers, hiw, hex] at h
  | none => rfl

/-- The shape of a successful `Execute` run: no error, and the stored
record afterwards is the pipeline of the four record-updating helpers. -/
theorem executeInit_run (site : Site) (svcE : OSUser → Bool)
    (dockE : DockerConfig → Bool) (dnsE : DNSConfig → Bool) (users : Option GoError)
    (gocr : Except GoError SysUser) (rpc : Except GoError Locator) (plan : List ServerRec)
    (exDNS : DNSConfig) (exDocker : DockerConfig) (exPeers : List String)
    (gp : Except GoError (List Peer)) (dp : String → Option GoError)
    (init : Option InitServerWorld) (legacyErr : Option GoError)
    (hca : createAdminAgent users = none)
    (hup : (upsertServiceUser svcE gocr site).err = none)
    (hrpc : initRPCCredentials rpc = none)
    (hpeers : removeInvalidObjectPeersStep ⟨site, svcE, dockE, dnsE, users, gocr, rpc, plan,
      exDNS, exDocker, exPeers, gp, dp, init, legacyErr⟩ = none)
    (hinit : ∀ iw, init = some iw → updatePhaseInitServerExecute iw = none) :
    (executeInit ⟨site, svcE, dockE, dnsE, users, gocr, rpc, plan, exDNS, exDocker,
      exPeers, gp, dp, init, legacyErr⟩).err = none ∧
    (executeInit ⟨site, svcE, dockE, dnsE, users, gocr, rpc, plan, exDNS, exDocker,
      exPeers, gp, dp, init, legacyErr⟩).site =
      (updateDockerConfig dockE exDocker
        (updateClusterDNSConfig dnsE exDNS
          (updateClusterRoles plan (upsertServiceUser svcE gocr site).site).site).site).site := by
  cases hin : init with
  | some iw =>
    rw [hin] at hpeers
    simp [executeInit, hca, hup, hrpc, updateClusterRoles_err, updateClusterDNSConfig_err,
      updateDockerConfig_err, hpeers, hinit iw hin]
  | none =>
    rw [hin] at hpeers
    simp [executeInit, hca, hup, hrpc, updateClusterRoles_err, updateClusterDNSConfig_err,
      updateDockerConfig_err, hpeers]

/-- Re-running `Execute` on the cluster record left behind by a successful
run succeeds again and leaves the stored record unchanged. -/
theorem executeInit_second_run (w : World) (h : (executeInit w).err = none) :
    (executeInit { w with site := (executeInit w).site }).err = none ∧
    (executeInit { w with site := (executeInit w).site }).site = (executeInit w).site := by
  cases w with
  | mk site svcE dockE dnsE users gocr rpc plan exDNS exDocker exPeers gp dp init legacyErr =>
    obtain ⟨hca, hup, hrpc, hpeers, hinit⟩ := executeInit_err_none site svcE dockE dnsE users
      gocr rpc plan exDNS exDocker exPeers gp dp init legacyErr h
    obtain ⟨herr1, hsite1⟩ := executeInit_run site svcE dockE dnsE users gocr rpc plan exDNS
      exDocker exPeers gp dp init legacyErr hca hup hrpc hpeers hinit
    rw [hsite1]
    set s1 := (upsertServiceUser svcE gocr site).site with hs1def
    set s2 := (updateClusterRoles plan s1).site with hs2def
    set s3 := (updateClusterDNSConfig dnsE exDNS s2).site with hs3def
    set s4 := (updateDockerConfig dockE exDocker s3).site with hs4def
    have hsu : s4.serviceUser = s1.serviceUser := by
      rw [hs4def, updateDockerConfig_site_serviceUser, hs3def,
        updateClusterDNSConfig_site_serviceUser, hs2def, updateClusterRoles_site_serviceUser]
    have hservers : s4.clusterState.servers = s2.clusterState.servers := by
      rw [hs4def, updateDockerConfig_site_servers, hs3def, updateClusterDNSConfig_site_servers]
    have hdnsEq : s4.dnsConfig = s3.dnsConfig := by
      rw [hs4def, updateDockerConfig_site_dns]
    obtain ⟨hupErr2, hupSite2⟩ :=
      upsertServiceUser_idem svcE gocr site s4 hup (by rw [hsu, hs1def])
    have hroles2 := updateClusterRoles_idem plan s1 s4 (by rw [hservers, hs2def])
    have hdns2 := updateClusterDNSConfig_idem dnsE exDNS s2 s4 (by rw [hdnsEq, hs3def])
    obtain ⟨hdockErr2, hdockSite2⟩ := updateDockerConfig_idem dockE exDocker s3 s4 (by rw [hs4def])
    have hpeers2 : removeInvalidObjectPeersStep ⟨s4, svcE, dockE, dnsE, users, gocr, rpc,
        plan, exDNS, exDocker, exPeers, gp, dp, init, legacyErr⟩ = none := hpeers
    obtain ⟨herr2, hsite2⟩ := executeInit_run s4 svcE dockE dnsE users gocr rpc plan exDNS
      exDocker exPeers gp dp init legacyErr hca hupErr2 hrpc hpeers2 hinit
    simp only [hupSite2, hroles2, hdns2] at hsite2
    rw [hdockSite2] at hsite2
    exact ⟨herr2, hsite2⟩

/-- Counterexample to C2 as stated: on a record whose DNS configuration is
already non-empty, `updateClusterDNSConfig` still performs a backend write
(one `UpdateSite` call) — it writes the record back unchanged and returns
nil, but it is not write-free. -/
theorem updateClusterDNSConfig_writes_counterexample :
    (fun d => d.addrs.isEmpty) sampleSite.dnsConfig = false ∧
    ¬ (updateClusterDNSConfig (fun d => d.addrs.isEmpty) ⟨["127.0.0.10"], 53⟩
        sampleSite).writes = 0 ∧
    (updateClusterDNSConfig (fun d => d.addrs.isEmpty) ⟨["127.0.0.10"], 53⟩
        sampleSite).site = sampleSite ∧
    (updateClusterDNSConfig (fun d => d.addrs.isEmpty) ⟨["127.0.0.10"], 53⟩
        sampleSite).err = none := by
  refine ⟨rfl, ?_, rfl, rfl⟩
  intro hc
  simp [updateClusterDNSConfig, sampleSite] at hc

/-- C2 (amended): `upsertServiceUser` / `updateDockerConfig` perform no
backend write and return nil when the respective stored field is already
non-empty; `updateClusterDNSConfig` always performs exactly one write, but
on a record with non-empty DNS configuration it writes the record back
unchanged and returns nil; hence invoking `Execute` a second time after a
successful first run reports no error and leaves the stored cluster record
unchanged. -/
theorem updateInit_cluster_record_idempotent :
    (∀ (isE : OSUser → Bool) resp site, isE site.serviceUser = false →
        upsertServiceUser isE resp site = ⟨none, site, 0⟩) ∧
    (∀ (isE : DockerConfig → Bool) cfg site, isE site.clusterState.docker = false →
        updateDockerConfig isE cfg site = ⟨none, site, 0⟩) ∧
    (∀ (isE : DNSConfig → Bool) d site, isE site.dnsConfig = false →
        updateClusterDNSConfig isE d site = ⟨none, site, 1⟩) ∧
    (∀ w : World, (executeInit w).err = none →
        (executeInit { w with site := (executeInit w).site }).err = none ∧
        (executeInit { w with site := (executeInit w).site }).site = (executeInit w).site) := by
  refine ⟨?_, ?_, ?_, executeInit_second_run⟩
  · intro isE resp site h
    unfold upsertServiceUser
    rw [if_pos (by simp [h])]
  · intro isE cfg site h
    unfold updateDockerConfig
    rw [if_pos (by simp [h])]
  · intro isE d site h
    unfold updateClusterDNSConfig
    rw [if_neg (by simp [h])]

/-- Witness for C2 (amended) at concrete inputs, including a full second
`Execute` run over the sample world. -/
theorem updateInit_cluster_record_idempotent_witness :
    upsertServiceUser (fun u => u.name == "") (.ok ⟨"planet", 980665, 980665⟩) sampleSite =
      ⟨none, sampleSite, 0⟩ ∧
    updateDockerConfig (fun d => d.storageDriver == "") ⟨"devicemapper", []⟩ sampleSite =
      ⟨none, sampleSite, 0⟩ ∧
    updateClusterDNSConfig (fun d => d.addrs.isEmpty) ⟨["127.0.0.10"], 53⟩ sampleSite =
      ⟨none, sampleSite, 1⟩ ∧
    ((executeInit sampleWorld).err = none ∧
      (executeInit { sampleWorld with site := (executeInit sampleWorld).site }).err = none ∧
      (executeInit { sampleWorld with site := (executeInit sampleWorld).site }).site =
        (executeInit sampleWorld).site) :=
  ⟨updateInit_cluster_record_idempotent.1 _ _ _ rfl,
    updateInit_cluster_record_idempotent.2.1 _ _ _ rfl,
    updateInit_cluster_record_idempotent.2.2.1 _ _ _ rfl,
    rfl,
    (updateInit_cluster_record_idempotent.2.2.2 sampleWorld rfl).1,
    (updateInit_cluster_record_idempotent.2.2.2 sampleWorld rfl).2⟩
